import Mathlib

/-
Verification of the pISSgraph backend (backend/pissgraph): a shallow
embedding of the telemetry acquisition pipeline (telemetry.py), the
HTTP query facade (api.py) and the reading store (database.py).

Modelling conventions:
- Python float values are modelled as rationals (ℚ); the code performs
  no arithmetic on telemetry values, only (in)equality tests, so ℚ is a
  faithful carrier for the change-detection logic.
- Timestamps are modelled as rationals (seconds); datetime subtraction
  followed by total_seconds() becomes plain subtraction in ℚ.
- The SQLite-backed store is modelled as a list of readings in insertion
  order.  The poller appends rows with non-decreasing wall-clock
  timestamps, so the row with the maximal timestamp returned by
  Database.get_latest_reading (ORDER BY timestamp DESC LIMIT 1) is the
  last appended row, modelled by List.getLast?.
- try/except blocks become total functions over an explicit enumeration
  of the possible outcomes of the guarded region.
-/

/-- The single monitored Lightstreamer item (telemetry.py line 15). -/
def URINE_TANK_NODE : String := "NODE3000005"

/-- One stored row of the telemetry_readings table (database.py,
class TelemetryReading): a timestamp and a urine tank level. -/
structure TelemetryReading where
  timestamp : ℚ
  urine_tank_level : ℚ
deriving DecidableEq, Repr

/-- Database.get_latest_reading: the most recent row by timestamp.  Rows
are appended with non-decreasing timestamps, so it is the last row. -/
def get_latest_reading (store : List TelemetryReading) : Option TelemetryReading :=
  store.getLast?

/-- Database.add_reading: append one row to the store. -/
def add_reading (store : List TelemetryReading) (r : TelemetryReading) :
    List TelemetryReading :=
  store ++ [r]

/-- The change-detection decision computed inline in
TelemetryService._poll_telemetry (telemetry.py lines 69 to 79): store if
the database is empty, or if the value differs from the last stored
value; otherwise do not store. -/
def should_store (value : ℚ) (latest : Option TelemetryReading) : Bool :=
  match latest with
  | none => true
  | some r => if value = r.urine_tank_level then false else true

/-- TelemetryService._poll_telemetry (telemetry.py lines 59 to 87) as a
store transformer: given the value returned by _get_current_value (None
when unavailable) and the wall-clock time used by _store_value, produce
the new store.  When no value is available nothing is written. -/
def poll_telemetry (value : Option ℚ) (now : ℚ)
    (store : List TelemetryReading) : List TelemetryReading :=
  match value with
  | none => store
  | some v =>
      if should_store v (get_latest_reading store) then
        add_reading store ⟨now, v⟩
      else
        store

/-- Successive poll cycles: fold poll_telemetry over a list of
(observed value, wall-clock time) pairs, one pair per cycle in which a
live value is available. -/
def run_cycles (obs : List (ℚ × ℚ)) (store : List TelemetryReading) :
    List TelemetryReading :=
  match obs with
  | [] => store
  | (v, t) :: rest => run_cycles rest (poll_telemetry (some v) t store)

/-- The sequence of persisted values of a store, in insertion order. -/
def stored_values (store : List TelemetryReading) : List ℚ :=
  store.map (·.urine_tank_level)

/-- Worker for the run-head computation: given the previously persisted
value, keep each observation that differs from its predecessor. -/
def runTail (prev : ℚ) : List ℚ → List ℚ
  | [] => []
  | y :: ys => if y = prev then runTail prev ys else y :: runTail y ys

/-- First values of maximal runs, computed recursively: keep the head,
then skip the remainder of its run. -/
def runHeadsRec : List ℚ → List ℚ
  | [] => []
  | x :: xs => x :: runTail x xs

/-- Chunk a list into its maximal runs of equal consecutive elements. -/
def splitRuns : List ℚ → List (List ℚ)
  | [] => []
  | x :: xs =>
      (x :: xs.takeWhile (fun z => decide (z = x))) ::
        splitRuns (xs.dropWhile (fun z => decide (z = x)))
termination_by l => l.length
decreasing_by
  simp only [List.length_cons]
  exact Nat.lt_succ_of_le (List.dropWhile_sublist _).length_le

/-- The first value of each maximal run of equal consecutive elements. -/
def runFirstValues (l : List ℚ) : List ℚ :=
  (splitRuns l).filterMap List.head?

theorem runTail_eq_runHeadsRec_dropWhile (prev : ℚ) (l : List ℚ) :
    runTail prev l = runHeadsRec (l.dropWhile (fun z => decide (z = prev))) := by
  induction l generalizing prev with
  | nil => rfl
  | cons y ys ih =>
      by_cases h : y = prev
      · simp [runTail, h, List.dropWhile, ih]
      · simp [runTail, h, List.dropWhile, runHeadsRec]

theorem runFirstValues_eq_runHeadsRec (l : List ℚ) :
    runFirstValues l = runHeadsRec l := by
  induction l using splitRuns.induct with
  | case1 => simp [runFirstValues, splitRuns, runHeadsRec]
  | case2 x xs ih =>
      simp only [runFirstValues, splitRuns] at ih ⊢
      simp only [List.filterMap_cons, List.head?, runHeadsRec]
      rw [ih, runTail_eq_runHeadsRec_dropWhile]

theorem run_cycles_values_of_last (obs : List (ℚ × ℚ)) :
    ∀ (store : List TelemetryReading) (r : TelemetryReading),
      get_latest_reading store = some r →
      stored_values (run_cycles obs store) =
        stored_values store ++ runTail r.urine_tank_level (obs.map Prod.fst) := by
  induction obs with
  | nil => intro store r _; simp [run_cycles, runTail]
  | cons p rest ih =>
      intro store r hlast
      obtain ⟨v, t⟩ := p
      by_cases h : v = r.urine_tank_level
      · have hpoll : poll_telemetry (some v) t store = store := by
          simp [poll_telemetry, should_store, hlast, h]
        simp only [run_cycles, hpoll, List.map_cons]
        rw [ih store r hlast]
        simp [runTail, h]
      · have hpoll : poll_telemetry (some v) t store =
            store ++ [⟨t, v⟩] := by
          simp [poll_telemetry, should_store, hlast, h, add_reading]
        simp only [run_cycles, hpoll, List.map_cons]
        have hlast2 : get_latest_reading (store ++ [(⟨t, v⟩ : TelemetryReading)]) =
            some ⟨t, v⟩ := by
          simp [get_latest_reading]
        rw [ih (store ++ [(⟨t, v⟩ : TelemetryReading)]) (⟨t, v⟩ : TelemetryReading) hlast2]
        simp [stored_values, runTail, h, List.append_assoc]

theorem run_cycles_from_empty (obs : List (ℚ × ℚ)) :
    stored_values (run_cycles obs []) = runFirstValues (obs.map Prod.fst) := by
  rw [runFirstValues_eq_runHeadsRec]
  cases obs with
  | nil => rfl
  | cons p rest =>
      obtain ⟨v, t⟩ := p
      have hpoll : poll_telemetry (some v) t [] = [⟨t, v⟩] := by
        simp [poll_telemetry, should_store, get_latest_reading, add_reading]
      simp only [run_cycles, hpoll, List.map_cons, runHeadsRec]
      have hlast : get_latest_reading [(⟨t, v⟩ : TelemetryReading)] = some ⟨t, v⟩ := by
        simp [get_latest_reading]
      rw [run_cycles_values_of_last rest [⟨t, v⟩] ⟨t, v⟩ hlast]
      simp [stored_values]

/-- C1: in every poll cycle where a live value v is available, a new
reading is persisted (appended to the store with the current wall-clock
time) if and only if the store is empty or v differs from the value of
the most recently stored reading; otherwise nothing is written.  A cycle
with no live value never writes. -/
theorem poll_persists_iff_changed (v now : ℚ) (store : List TelemetryReading) :
    (get_latest_reading store = none →
      poll_telemetry (some v) now store = store ++ [⟨now, v⟩]) ∧
    (∀ r, get_latest_reading store = some r → v ≠ r.urine_tank_level →
      poll_telemetry (some v) now store = store ++ [⟨now, v⟩]) ∧
    (∀ r, get_latest_reading store = some r → v = r.urine_tank_level →
      poll_telemetry (some v) now store = store) ∧
    poll_telemetry none now store = store := by
  refine ⟨?_, ?_, ?_, rfl⟩
  · intro h; simp [poll_telemetry, should_store, h, add_reading]
  · intro r h hne; simp [poll_telemetry, should_store, h, hne, add_reading]
  · intro r h heq; simp [poll_telemetry, should_store, h, heq]

/-- Witness for C1 at a concrete store and value. -/
theorem poll_persists_iff_changed_witness :
    poll_telemetry (some 46) 10 [⟨0, 45⟩] = [⟨0, 45⟩, ⟨10, 46⟩] ∧
    poll_telemetry (some 45) 10 [⟨0, 45⟩] = [⟨0, 45⟩] := by
  constructor
  · exact (poll_persists_iff_changed 46 10 [⟨0, 45⟩]).2.1 ⟨0, 45⟩ (by decide) (by decide)
  · exact (poll_persists_iff_changed 45 10 [⟨0, 45⟩]).2.2.1 ⟨0, 45⟩ (by decide) (by decide)

/-- C2: starting from an empty store, the persisted sequence of values
over any sequence of poll cycles equals the sequence of first values of
the maximal runs of equal consecutive observations; in particular the
observations 45.0, 45.0, 46.2, 46.2, 46.2, 44.9 persist exactly
45.0, 46.2, 44.9. -/
theorem persisted_eq_run_first_values :
    (∀ obs : List (ℚ × ℚ),
      stored_values (run_cycles obs []) = runFirstValues (obs.map Prod.fst)) ∧
    stored_values (run_cycles
        [(45, 0), (45, 60), (46.2, 120), (46.2, 180), (46.2, 240), (44.9, 300)] []) =
      [45, 46.2, 44.9] := by
  refine ⟨run_cycles_from_empty, ?_⟩
  norm_num [run_cycles, poll_telemetry, should_store, get_latest_reading,
    add_reading, stored_values]

/-- Character-level prefix test, mirroring the Python method
str.startswith on the character sequences of the strings. -/
def charPrefix : List Char → List Char → Bool
  | [], _ => true
  | _ :: _, [] => false
  | c :: cs, d :: ds => if c = d then charPrefix cs ds else false

/-- startsWithDISCONNECTED s mirrors new_status.startswith of
telemetry.py line 138. -/
def startsWithDISCONNECTED (s : String) : Bool :=
  charPrefix "DISCONNECTED".data s.data

/-- Character-level substring search over a character list. -/
def charContains (pat : List Char) : List Char → Bool
  | [] => charPrefix pat []
  | c :: cs => if charPrefix pat (c :: cs) then true else charContains pat cs

/-- True when the string contains ERROR as a substring (the membership
test of telemetry.py line 142). -/
def containsERROR (s : String) : Bool :=
  charContains "ERROR".data s.data

/-- How ConnectionListener.onStatusChange (telemetry.py lines 129 to 145)
resolves the connection future on a given status: the streaming status
resolves it to true, a DISCONNECTED-prefixed or ERROR-containing status
resolves it to false, and any other status leaves it pending. -/
def statusToResolution (s : String) : Option Bool :=
  if s = "CONNECTED:WS-STREAMING" then some true
  else if startsWithDISCONNECTED s then some false
  else if containsERROR s then some false
  else none

/-- The possible ways the guarded region of TelemetryService._connect
(telemetry.py lines 118 to 176) can resolve: the connection future is
resolved by a status notification, the 15 second wait times out, or an
exception is raised anywhere in the attempt. -/
inductive AttemptOutcome where
  | futureResolved (streaming : Bool)
  | timedOut
  | raised
deriving DecidableEq, Repr

/-- The observable effect of one run of TelemetryService._connect: the
final connected flag, whether the data subscription was registered,
whether a best-effort client disconnect was attempted, and the boolean
returned to the caller. -/
structure ConnectResult where
  connected : Bool
  subscribed : Bool
  disconnectAttempted : Bool
  returnValue : Bool
deriving DecidableEq, Repr

/-- TelemetryService._connect as a total function of the attempt
outcome.  On a future resolved to true the flag is set, the
subscription registered and true returned; on a future resolved to
false control falls through to the final connected = False, return
False; on timeout a best-effort disconnect is attempted first; on any
exception the except branch also reaches connected = False, return
False.  Totality reflects that no exception escapes to the caller. -/
def connectAttempt : AttemptOutcome → ConnectResult
  | .futureResolved true => ⟨true, true, false, true⟩
  | .futureResolved false => ⟨false, false, false, false⟩
  | .timedOut => ⟨false, false, true, false⟩
  | .raised => ⟨false, false, false, false⟩

/-- C3: every connection attempt terminates in exactly one of three
outcomes and never raises: streaming established means connected flag
true, subscription registered and return true; a disconnect or error
status notification means connected false and return false; the timeout
means connected false, a best-effort disconnect attempted and return
false; an exception during the attempt also yields connected false and
return false.  The status mapping sends the streaming status to a true
resolution and every DISCONNECTED or ERROR status to a false one. -/
theorem connect_three_outcomes :
    (∀ o : AttemptOutcome,
      ((connectAttempt o).returnValue = true ↔ o = .futureResolved true) ∧
      ((connectAttempt o).connected = true ↔ o = .futureResolved true) ∧
      (o = .futureResolved true → (connectAttempt o).subscribed = true) ∧
      (o = .timedOut → (connectAttempt o).disconnectAttempted = true ∧
        (connectAttempt o).returnValue = false)) ∧
    statusToResolution "CONNECTED:WS-STREAMING" = some true ∧
    (∀ s, startsWithDISCONNECTED s = true → statusToResolution s = some false) ∧
    (∀ s, containsERROR s = true → statusToResolution s ≠ some true) := by
  refine ⟨?_, rfl, ?_, ?_⟩
  · intro o
    cases o with
    | futureResolved b => cases b <;> simp [connectAttempt]
    | timedOut => simp [connectAttempt]
    | raised => simp [connectAttempt]
  · intro s hs
    have hne : s ≠ "CONNECTED:WS-STREAMING" := by
      intro h
      rw [h] at hs
      exact absurd hs (by decide)
    simp [statusToResolution, hne, hs]
  · intro s hs
    by_cases h1 : s = "CONNECTED:WS-STREAMING"
    · rw [h1] at hs
      exact absurd hs (by decide)
    · by_cases h2 : startsWithDISCONNECTED s
      · simp [statusToResolution, h1, h2]
      · simp [statusToResolution, h1, h2, hs]

/-- Witness for C3: the timeout outcome at a concrete status history. -/
theorem connect_three_outcomes_witness :
    (connectAttempt .timedOut).connected = false ∧
    (connectAttempt .timedOut).disconnectAttempted = true ∧
    (connectAttempt .timedOut).returnValue = false ∧
    statusToResolution "DISCONNECTED:WILL-RETRY" = some false := by
  refine ⟨?_, ?_, ?_, ?_⟩
  · have h1 := (connect_three_outcomes.1 AttemptOutcome.timedOut).2.1
    cases hc : (connectAttempt AttemptOutcome.timedOut).connected with
    | false => rfl
    | true => exact absurd (h1.mp hc) (by decide)
  · exact ((connect_three_outcomes.1 .timedOut).2.2.2 rfl).1
  · exact ((connect_three_outcomes.1 .timedOut).2.2.2 rfl).2
  · exact connect_three_outcomes.2.2.1 "DISCONNECTED:WILL-RETRY" (by decide)

/-- The payload of a push notification value field, identified by the
outcome of the Python float conversion applied to it: parsed = none
models a value on which float raises ValueError or TypeError. -/
structure RawValue where
  parsed : Option ℚ
deriving DecidableEq

/-- One push notification as seen by TelemetryListener.onItemUpdate:
the item name reported by getItemName and the optional Value field
returned by getValue. -/
structure ItemUpdate where
  itemName : String
  value : Option RawValue
deriving DecidableEq

/-- TelemetryListener.onItemUpdate (telemetry.py lines 190 to 208) as a
transformer of the shared current_value slot: only a notification for
the monitored node whose value is present and parses as a float
overwrites the slot; everything else leaves it unchanged.  Totality of
the function reflects the surrounding try/except blocks: no exception
escapes the handler. -/
def onItemUpdate (u : ItemUpdate) (current : Option ℚ) : Option ℚ :=
  match u.value with
  | none => current
  | some raw =>
      if u.itemName = URINE_TANK_NODE then
        match raw.parsed with
        | some v => some v
        | none => current
      else current

/-- C5: a push notification whose value is absent, whose value does not
parse as a float, or whose item is not the monitored node leaves the
shared current_value unchanged; only a notification for the monitored
item with a parsing value overwrites it, and any change is exactly such
an overwrite. -/
theorem onItemUpdate_guard (u : ItemUpdate) (current : Option ℚ) :
    (u.value = none → onItemUpdate u current = current) ∧
    (u.itemName ≠ URINE_TANK_NODE → onItemUpdate u current = current) ∧
    (∀ raw, u.value = some raw → raw.parsed = none →
      onItemUpdate u current = current) ∧
    (∀ raw v, u.value = some raw → u.itemName = URINE_TANK_NODE →
      raw.parsed = some v → onItemUpdate u current = some v) ∧
    (onItemUpdate u current ≠ current →
      ∃ raw v, u.value = some raw ∧ u.itemName = URINE_TANK_NODE ∧
        raw.parsed = some v ∧ onItemUpdate u current = some v) := by
  refine ⟨?_, ?_, ?_, ?_, ?_⟩
  · intro h; simp [onItemUpdate, h]
  · intro h
    cases hv : u.value with
    | none => simp [onItemUpdate, hv]
    | some raw => simp [onItemUpdate, hv, h]
  · intro raw hv hp; simp [onItemUpdate, hv, hp]
  · intro raw v hv hn hp; simp [onItemUpdate, hv, hn, hp]
  · intro hchange
    cases hv : u.value with
    | none => exact absurd (by simp [onItemUpdate, hv]) hchange
    | some raw =>
        by_cases hn : u.itemName = URINE_TANK_NODE
        · cases hp : raw.parsed with
          | none => exact absurd (by simp [onItemUpdate, hv, hn, hp]) hchange
          | some v =>
              exact ⟨raw, v, rfl, hn, hp, by simp [onItemUpdate, hv, hn, hp]⟩
        · exact absurd (by simp [onItemUpdate, hv, hn]) hchange

/-- Witness for C5: a non-numeric value for the monitored node and a
notification for a different node both leave the slot unchanged, while
a numeric value for the monitored node overwrites it. -/
theorem onItemUpdate_guard_witness :
    onItemUpdate ⟨"NODE3000005", some ⟨none⟩⟩ (some 42) = some 42 ∧
    onItemUpdate ⟨"NODE3000009", some ⟨some 7⟩⟩ (some 42) = some 42 ∧
    onItemUpdate ⟨"NODE3000005", some ⟨some 7⟩⟩ (some 42) = some 7 := by
  refine ⟨?_, ?_, ?_⟩
  · exact (onItemUpdate_guard ⟨"NODE3000005", some ⟨none⟩⟩ (some 42)).2.2.1
      ⟨none⟩ rfl rfl
  · exact (onItemUpdate_guard ⟨"NODE3000009", some ⟨some 7⟩⟩ (some 42)).2.1
      (by decide)
  · exact (onItemUpdate_guard ⟨"NODE3000005", some ⟨some 7⟩⟩ (some 42)).2.2.2.1
      ⟨some 7⟩ 7 rfl rfl rfl

/-- What one iteration of TelemetryService._polling_loop (telemetry.py
lines 47 to 57) encounters: a normal cycle, an exception raised inside
the cycle, or the cancellation signal. -/
inductive CycleEvent where
  | normalCycle
  | raisedError
  | cancelled
deriving DecidableEq, Repr

/-- The observable behaviour of a finite run of the polling loop:
how many iterations were entered, how many interval sleeps were
performed, and whether the loop exited via the cancellation branch. -/
structure LoopOutcome where
  iterations : Nat
  sleeps : Nat
  exitedByCancel : Bool
deriving DecidableEq, Repr

/-- TelemetryService._polling_loop over a finite trace of cycle events:
cancellation breaks out of the loop; a normal cycle or a caught
exception is followed by the interval sleep and the next iteration.  An
exhausted trace means the loop is still running. -/
def polling_loop : List CycleEvent → LoopOutcome
  | [] => ⟨0, 0, false⟩
  | e :: rest =>
      match e with
      | .cancelled => ⟨1, 0, true⟩
      | .normalCycle =>
          let o := polling_loop rest
          ⟨o.iterations + 1, o.sleeps + 1, o.exitedByCancel⟩
      | .raisedError =>
          let o := polling_loop rest
          ⟨o.iterations + 1, o.sleeps + 1, o.exitedByCancel⟩

/-- C6: the polling loop never terminates because of an exception: it
exits exactly when the trace contains the cancellation signal, and on a
trace free of cancellation every iteration (normal or failed) performs
its interval sleep and the loop runs through the whole trace. -/
theorem polling_loop_exits_only_on_cancel (trace : List CycleEvent) :
    ((polling_loop trace).exitedByCancel = true ↔ CycleEvent.cancelled ∈ trace) ∧
    (CycleEvent.cancelled ∉ trace →
      (polling_loop trace).iterations = trace.length ∧
      (polling_loop trace).sleeps = trace.length) := by
  induction trace with
  | nil => simp [polling_loop]
  | cons e rest ih =>
      cases e with
      | cancelled => simp [polling_loop]
      | normalCycle =>
          constructor
          · simpa [polling_loop] using ih.1
          · intro h
            simp only [List.mem_cons, not_or] at h
            have := ih.2 h.2
            simp [polling_loop, this.1, this.2]
      | raisedError =>
          constructor
          · simpa [polling_loop] using ih.1
          · intro h
            simp only [List.mem_cons, not_or] at h
            have := ih.2 h.2
            simp [polling_loop, this.1, this.2]

/-- Witness for C6: a trace with an exception and no cancellation keeps
iterating and sleeping; a trace ending in cancellation exits. -/
theorem polling_loop_exits_only_on_cancel_witness :
    (polling_loop [.raisedError, .normalCycle]).iterations = 2 ∧
    (polling_loop [.raisedError, .normalCycle]).sleeps = 2 ∧
    (polling_loop [.raisedError, .normalCycle, .cancelled]).exitedByCancel = true := by
  refine ⟨?_, ?_, ?_⟩
  · exact ((polling_loop_exits_only_on_cancel [.raisedError, .normalCycle]).2
      (by decide)).1
  · exact ((polling_loop_exits_only_on_cancel [.raisedError, .normalCycle]).2
      (by decide)).2
  · exact (polling_loop_exits_only_on_cancel
      [.raisedError, .normalCycle, .cancelled]).1.mpr (by decide)

/-- Modelled from the spec: Database.clear_all_readings is invoked by
the clear endpoint (api.py line 169) but its definition is missing from
database.py; per the spec it is an administrative bulk delete that
removes every stored reading and returns the count of deleted rows. -/
def clear_all_readings (store : List TelemetryReading) :
    List TelemetryReading × Nat :=
  ([], store.length)

/-- The clear endpoint clear_telemetry (api.py lines 166 to 170): it
calls clear_all_readings and reports the returned count in its
message. -/
def clear_telemetry (store : List TelemetryReading) :
    List TelemetryReading × String :=
  let res := clear_all_readings store
  (res.1, "Cleared " ++ toString res.2 ++ " telemetry readings")

/-- C4: the bulk delete removes every stored reading and returns the
number of deleted rows, and the clear endpoint empties the store and
reports exactly that count. -/
theorem clear_all_readings_spec (store : List TelemetryReading) :
    clear_all_readings store = ([], store.length) ∧
    (clear_telemetry store).1 = [] ∧
    (clear_telemetry store).2 =
      "Cleared " ++ toString store.length ++ " telemetry readings" := by
  exact ⟨rfl, rfl, rfl⟩

/-- One point of the response of the telemetry range endpoint. -/
structure TelemetryDataPoint where
  timestamp : ℚ
  urine_tank_level : ℚ
deriving DecidableEq, Repr

/-- The chronological data points built by get_telemetry (api.py lines
64 to 67) from the store rows returned in descending order. -/
def chronological_points (readingsDesc : List TelemetryReading) :
    List TelemetryDataPoint :=
  readingsDesc.reverse.map fun r => ⟨r.timestamp, r.urine_tank_level⟩

/-- The trailing-point stage of get_telemetry (api.py lines 69 to 96):
when the point list is non-empty, the requested range still includes
the present moment (no end time, or the end time at most ten seconds
before now) and the last point is more than sixty seconds old, append a
synthetic point at the current time carrying the live value from the
telemetry service when available and the last stored value otherwise. -/
def add_now_point (points : List TelemetryDataPoint) (currentTime : ℚ)
    (endTime : Option ℚ) (live : Option ℚ) : List TelemetryDataPoint :=
  match points.getLast? with
  | none => points
  | some last =>
      let includesNow : Bool :=
        match endTime with
        | none => true
        | some e => decide (e - currentTime ≥ -10)
      if includesNow && decide (currentTime - last.timestamp > 60) then
        points ++ [⟨currentTime, live.getD last.urine_tank_level⟩]
      else
        points

/-- get_telemetry (api.py lines 48 to 103), data shaping only: reverse
the descending store rows into chronological order, then apply the
trailing-point stage. -/
def get_telemetry_points (readingsDesc : List TelemetryReading)
    (currentTime : ℚ) (endTime : Option ℚ) (live : Option ℚ) :
    List TelemetryDataPoint :=
  add_now_point (chronological_points readingsDesc) currentTime endTime live

/-- C7: for a non-empty result, the synthetic trailing point at the
current time is appended exactly when the most recent stored reading is
more than 60 seconds old and the requested range includes the present
moment within a 10 second tolerance; the appended point carries the
live value when one is available and otherwise the last stored value. -/
theorem now_point_appended_iff_stale (readingsDesc : List TelemetryReading)
    (currentTime : ℚ) (endTime : Option ℚ) (live : Option ℚ)
    (last : TelemetryDataPoint)
    (hlast : (chronological_points readingsDesc).getLast? = some last) :
    (((endTime = none ∨ ∃ e, endTime = some e ∧ e - currentTime ≥ -10) ∧
        currentTime - last.timestamp > 60) →
      get_telemetry_points readingsDesc currentTime endTime live =
        chronological_points readingsDesc ++
          [⟨currentTime, live.getD last.urine_tank_level⟩]) ∧
    ((¬ ((endTime = none ∨ ∃ e, endTime = some e ∧ e - currentTime ≥ -10) ∧
        currentTime - last.timestamp > 60)) →
      get_telemetry_points readingsDesc currentTime endTime live =
        chronological_points readingsDesc) := by
  cases endTime with
  | none =>
      constructor
      · rintro ⟨_, hdiff⟩
        simp only [get_telemetry_points, add_now_point, hlast]
        simp [hdiff]
      · intro hneg
        have hdiff : ¬ currentTime - last.timestamp > 60 := by
          intro h; exact hneg ⟨Or.inl rfl, h⟩
        simp only [get_telemetry_points, add_now_point, hlast]
        simp [hdiff]
  | some e =>
      constructor
      · rintro ⟨hin, hdiff⟩
        have hge : e - currentTime ≥ -10 := by
          rcases hin with h | ⟨e2, he2, hge2⟩
          · exact absurd h (by simp)
          · obtain rfl : e2 = e := by
              have h2 := he2.symm
              injection h2
            exact hge2
        simp only [get_telemetry_points, add_now_point, hlast]
        simp only [Bool.and_eq_true, decide_eq_true_eq]
        rw [if_pos ⟨hge, hdiff⟩]
      · intro hneg
        simp only [get_telemetry_points, add_now_point, hlast]
        simp only [Bool.and_eq_true, decide_eq_true_eq]
        by_cases hge : e - currentTime ≥ -10
        · have hdiff : ¬ currentTime - last.timestamp > 60 := by
            intro h; exact hneg ⟨Or.inr ⟨e, rfl, hge⟩, h⟩
          rw [if_neg]
          intro hc
          exact hdiff hc.2
        · rw [if_neg]
          intro hc
          exact hge hc.1

/-- Witness for C7, matching the spec scenario: the last stored reading
is five minutes old, the range has no end bound, and a live value 50 is
available, so a synthetic point at the current time with value 50 is
appended. -/
theorem now_point_appended_iff_stale_witness :
    get_telemetry_points [⟨0, 45⟩] 300 none (some 50) =
      [⟨0, 45⟩, ⟨300, 50⟩] := by
  have h := (now_point_appended_iff_stale [⟨0, 45⟩] 300 none (some 50)
    ⟨0, 45⟩ (by decide)).1 ⟨Or.inl rfl, by norm_num⟩
  simpa [chronological_points] using h

/-- TelemetryService._ensure_connected under the connect lock, with the
N concurrent callers serialized in FIFO order by the lock: each caller
first checks the connected flag (the pre-lock fast path and the re-check
after acquiring the lock collapse under serialization) and returns true
without an attempt when it is set; otherwise it initiates attempt number
a, whose outcome oracle a becomes both its return value and the new
connected flag.  Returns the per-caller results and the final attempt
counter. -/
def ensure_connected_seq (oracle : Nat → Bool) :
    Nat → Bool → Nat → List Bool × Nat
  | 0, _, attempts => ([], attempts)
  | n + 1, connected, attempts =>
      if connected then
        let rec_ := ensure_connected_seq oracle n connected attempts
        (true :: rec_.1, rec_.2)
      else
        let b := oracle attempts
        let rec_ := ensure_connected_seq oracle n b (attempts + 1)
        (b :: rec_.1, rec_.2)

/-- C8 counterexample: two callers arrive while disconnected and the
first attempt fails while the second succeeds; two attempts are
initiated (not one) and the callers observe different outcomes. -/
theorem ensure_connected_not_single_attempt :
    ¬ ((ensure_connected_seq (fun k => decide (k = 1)) 2 false 0).2 = 1 ∧
       ∃ b, ∀ x ∈ (ensure_connected_seq (fun k => decide (k = 1)) 2 false 0).1,
         x = b) := by
  decide

/-- C8 amended: callers are serialized by the lock; a caller that finds
the state already connected returns true without initiating an attempt,
and when the first attempt succeeds exactly one attempt is initiated
and every caller returns true.  A failed attempt, however, lets the
next waiting caller initiate a further attempt. -/
theorem ensure_connected_serialized (oracle : Nat → Bool) (n : Nat) :
    (∀ a, ensure_connected_seq oracle n true a = (List.replicate n true, a)) ∧
    (oracle 0 = true →
      ensure_connected_seq oracle (n + 1) false 0 =
        (List.replicate (n + 1) true, 1)) := by
  have hconn : ∀ m a, ensure_connected_seq oracle m true a =
      (List.replicate m true, a) := by
    intro m
    induction m with
    | zero => intro a; rfl
    | succ k ih =>
        intro a
        simp [ensure_connected_seq, ih a, List.replicate_succ]
  refine ⟨hconn n, ?_⟩
  intro h0
  simp [ensure_connected_seq, h0, hconn n 1, List.replicate_succ]

/-- Witness for C8 amended: two callers while disconnected with a
succeeding first attempt yield one attempt and two true results. -/
theorem ensure_connected_serialized_witness :
    ensure_connected_seq (fun _ => true) 2 false 0 = ([true, true], 1) := by
  have h := (ensure_connected_serialized (fun _ => true) 1).2 rfl
  simpa using h

/-- The bounded initial-data wait of TelemetryService._get_current_value
(telemetry.py lines 96 to 104): reads k is the shared current_value as
observed after the k-th one-second sleep (reads 0 is the value before
any sleep).  waited counts the sleeps performed so far and the second
argument the remaining loop iterations; each iteration sleeps once,
re-reads, and breaks when a value is present. -/
def wait_go (reads : Nat → Option ℚ) : Nat → Nat → Nat × Option ℚ
  | waited, 0 => (waited, reads waited)
  | waited, m + 1 =>
      match reads (waited + 1) with
      | some v => (waited + 1, some v)
      | none => wait_go reads (waited + 1) m

/-- TelemetryService._get_current_value (telemetry.py lines 89 to 106):
when the connection cannot be ensured the cycle yields no value and no
waits; when a live value has already been observed it is returned with
no waits; otherwise up to five one-second waits poll for initial data.
Returns the value handed to the poll cycle and the number of waits. -/
def get_current_value (ensureOk : Bool) (reads : Nat → Option ℚ) :
    Option ℚ × Nat :=
  if ensureOk then
    match reads 0 with
    | some v => (some v, 0)
    | none =>
        let res := wait_go reads 0 5
        (res.2, res.1)
  else (none, 0)

theorem wait_go_all_none (reads : Nat → Option ℚ) (m : Nat) :
    ∀ waited, (∀ j, waited ≤ j → j ≤ waited + m → reads j = none) →
      wait_go reads waited m = (waited + m, none) := by
  induction m with
  | zero =>
      intro waited h
      simpa [wait_go] using h waited le_rfl (by omega)
  | succ k ih =>
      intro waited h
      have h1 : reads (waited + 1) = none := h (waited + 1) (by omega) (by omega)
      have h2 : ∀ j, waited + 1 ≤ j → j ≤ waited + 1 + k → reads j = none := by
        intro j hj1 hj2
        exact h j (by omega) (by omega)
      simp only [wait_go, h1]
      rw [ih (waited + 1) h2]
      congr 1
      omega

theorem wait_go_first_some (reads : Nat → Option ℚ) (m : Nat) :
    ∀ waited t v, waited < t → t ≤ waited + m → reads t = some v →
      (∀ j, waited < j → j < t → reads j = none) →
      wait_go reads waited m = (t, some v) := by
  induction m with
  | zero => intro waited t v h1 h2; omega
  | succ k ih =>
      intro waited t v h1 h2 hv hnone
      by_cases ht : t = waited + 1
      · subst ht
        simp [wait_go, hv]
      · have hn : reads (waited + 1) = none := hnone (waited + 1) (by omega) (by omega)
        simp only [wait_go, hn]
        exact ih (waited + 1) t v (by omega) (by omega) hv
          (fun j hj1 hj2 => hnone j (by omega) hj2)

theorem wait_go_waits_le (reads : Nat → Option ℚ) (m : Nat) :
    ∀ waited, (wait_go reads waited m).1 ≤ waited + m := by
  induction m with
  | zero => intro waited; simp [wait_go]
  | succ k ih =>
      intro waited
      simp only [wait_go]
      cases hr : reads (waited + 1) with
      | some v =>
          show waited + 1 ≤ waited + (k + 1)
          omega
      | none =>
          have h2 := ih (waited + 1)
          show (wait_go reads (waited + 1) k).1 ≤ waited + (k + 1)
          omega

/-- C9: in a cycle where the connection succeeds but no live value has
ever been observed, the coordinator performs at most five one-second
waits, re-reading the live value after each; it stops at the first wait
after which a value is present, and if none appears after five waits it
gives up for the cycle and returns no value.  When the connection fails
it returns no value without waiting. -/
theorem initial_wait_bounded (reads : Nat → Option ℚ)
    (h0 : reads 0 = none) :
    get_current_value false reads = (none, 0) ∧
    (get_current_value true reads).2 ≤ 5 ∧
    ((∀ k, k ≤ 5 → reads k = none) → get_current_value true reads = (none, 5)) ∧
    (∀ t v, 1 ≤ t → t ≤ 5 → reads t = some v →
      (∀ j, j < t → reads j = none) →
      get_current_value true reads = (some v, t)) := by
  refine ⟨rfl, ?_, ?_, ?_⟩
  · simp only [get_current_value, if_pos rfl, h0]
    simpa using wait_go_waits_le reads 5 0
  · intro hall
    have h := wait_go_all_none reads 5 0 (fun j _ hj => hall j (by omega))
    simp [get_current_value, h0, h]
  · intro t v h1 h5 hv hnone
    have h := wait_go_first_some reads 5 0 t v (by omega) (by omega) hv
      (fun j hj1 hj2 => hnone j hj2)
    simp [get_current_value, h0, h]

/-- Witness for C9: with the first value appearing after the third
wait, exactly three waits are performed and the value is returned; with
no value at all, five waits are performed and none is returned. -/
theorem initial_wait_bounded_witness :
    get_current_value true (fun k => if k = 3 then some 7 else none) =
      (some 7, 3) ∧
    get_current_value true (fun _ => none) = (none, 5) := by
  constructor
  · exact (initial_wait_bounded (fun k => if k = 3 then some 7 else none)
      (by decide)).2.2.2 3 7 (by decide) (by decide) (by decide)
      (by decide)
  · exact (initial_wait_bounded (fun _ => none) rfl).2.2.1 (fun k _ => rfl)

/-- The response of the latest-reading endpoint: either a reading with
its status string, or an HTTP error with its status code. -/
inductive LatestResponse where
  | ok (timestamp : ℚ) (urine_tank_level : ℚ) (status : String)
  | httpError (code : Nat)
deriving DecidableEq, Repr

/-- get_latest_telemetry (api.py lines 105 to 128): with no stored
reading, a present live value is served with status live at the current
time, and otherwise the request fails with HTTP 404; with a stored
reading, it is served with status stale when more than 600 seconds old
and active otherwise.  The live input collapses telemetry_service being
None and its current_value being None, which the code treats alike. -/
def get_latest_telemetry (latest : Option TelemetryReading)
    (live : Option ℚ) (now : ℚ) : LatestResponse :=
  match latest with
  | none =>
      match live with
      | some v => .ok now v "live"
      | none => .httpError 404
  | some r =>
      .ok r.timestamp r.urine_tank_level
        (if now - r.timestamp > 600 then "stale" else "active")

/-- C10: for every request to the latest-reading endpoint, an empty
store with a live value present yields status live at the current time
with the live value; an empty store with no live value yields HTTP 404;
and a stored latest reading is returned with status stale exactly when
it is more than 600 seconds old and active otherwise. -/
theorem latest_endpoint_cases (latest : Option TelemetryReading)
    (live : Option ℚ) (now : ℚ) :
    (latest = none → ∀ v, live = some v →
      get_latest_telemetry latest live now = .ok now v "live") ∧
    (latest = none → live = none →
      get_latest_telemetry latest live now = .httpError 404) ∧
    (∀ r, latest = some r → now - r.timestamp > 600 →
      get_latest_telemetry latest live now =
        .ok r.timestamp r.urine_tank_level "stale") ∧
    (∀ r, latest = some r → ¬ now - r.timestamp > 600 →
      get_latest_telemetry latest live now =
        .ok r.timestamp r.urine_tank_level "active") := by
  refine ⟨?_, ?_, ?_, ?_⟩
  · intro h v hv; simp [get_latest_telemetry, h, hv]
  · intro h hv; simp [get_latest_telemetry, h, hv]
  · intro r h hs; simp [get_latest_telemetry, h, hs]
  · intro r h hs; simp [get_latest_telemetry, h, hs]

/-- Witness for C10 at concrete inputs for all four cases. -/
theorem latest_endpoint_cases_witness :
    get_latest_telemetry none (some 50) 1000 = .ok 1000 50 "live" ∧
    get_latest_telemetry none none 1000 = .httpError 404 ∧
    get_latest_telemetry (some ⟨0, 45⟩) none 1000 = .ok 0 45 "stale" ∧
    get_latest_telemetry (some ⟨900, 45⟩) none 1000 = .ok 900 45 "active" := by
  refine ⟨?_, ?_, ?_, ?_⟩
  · exact (latest_endpoint_cases none (some 50) 1000).1 rfl 50 rfl
  · exact (latest_endpoint_cases none none 1000).2.1 rfl rfl
  · exact (latest_endpoint_cases (some ⟨0, 45⟩) none 1000).2.2.1 ⟨0, 45⟩ rfl
      (by norm_num)
  · exact (latest_endpoint_cases (some ⟨900, 45⟩) none 1000).2.2.2 ⟨900, 45⟩ rfl
      (by norm_num)
